import Mathlib

/-!
Verification development for the single-window web-shell application
(`src/main.js`): domain policy, navigation interceptors, restore-state
store, second-instance coordinator and the shell window creation guard,
shallowly embedded as pure Lean functions.
-/

/-! ### Model of the host URL parser

The source calls the WHATWG `new URL(s)` constructor and only ever reads
`protocol` and `hostname` from the result.  We model a URL by those two
fields and model the parser: the scheme is the (lower-cased) run of
characters before the first `:`, valid when nonempty, alphabetic-first and
made of alphanumerics or `+ - .`; for the special schemes other than
`file` the authority follows (after optional slashes), the hostname is the
lower-cased authority stripped of userinfo and port, and an empty hostname
is a parse failure; for `file` and non-special schemes a hostname is read
only after a literal `//`.  Parse failure is `none` (the constructor
throws). -/

structure URLRec where
  protocol : String
  hostname : String
  deriving DecidableEq, Repr

/-- ASCII lower-casing of a character, as the host string APIs perform on
the ASCII hostnames and schemes this program handles. -/
def charToLower (c : Char) : Char :=
  if c.isUpper then Char.ofNat (c.toNat + 32) else c

/-- Model of `s.toLowerCase()` on the ASCII strings this program handles. -/
def strToLower (s : String) : String :=
  String.mk (s.data.map charToLower)

/-- Model of `s.endsWith(t)` of the host string API. -/
def strEndsWith (s t : String) : Bool :=
  decide (s.data.drop (s.data.length - t.data.length) = t.data)

def isSchemeTailChar (c : Char) : Bool :=
  c.isAlphanum || c = '+' || c = '-' || c = '.'

def validScheme (cs : List Char) : Bool :=
  match cs with
  | [] => false
  | c :: rest => c.isAlpha && rest.all isSchemeTailChar

/-- Split a character list at the first `:`, returning the parts before and
after it; `none` when no `:` occurs. -/
def splitAtColon : List Char → Option (List Char × List Char)
  | [] => none
  | c :: rest =>
    if c = ':' then some ([], rest)
    else
      match splitAtColon rest with
      | some (a, b) => some (c :: a, b)
      | none => none

/-- The authority component: everything up to the first `/`, `?` or `#`. -/
def authorityOf (cs : List Char) : List Char :=
  cs.takeWhile (fun c => !(c = '/' || c = '?' || c = '#'))

/-- Drop the userinfo part: keep only what follows the last `@`. -/
def afterLastAt (cs : List Char) : List Char :=
  (cs.reverse.takeWhile (fun c => c ≠ '@')).reverse

/-- The hostname inside an authority: strip userinfo, then cut at the port
separator `:`. -/
def hostOf (cs : List Char) : List Char :=
  (afterLastAt (authorityOf cs)).takeWhile (fun c => c ≠ ':')

def specialNonFileSchemes : List String :=
  ["http", "https", "ws", "wss", "ftp"]

def parseURL (s : String) : Option URLRec :=
  match splitAtColon s.data with
  | none => none
  | some (schemeCs, rest) =>
    if validScheme schemeCs then
      let scheme := strToLower (String.mk schemeCs)
      if specialNonFileSchemes.contains scheme then
        let host := strToLower (String.mk (hostOf (rest.dropWhile (fun c => c = '/'))))
        if host = "" then none
        else some ⟨scheme ++ ":", host⟩
      else
        match rest with
        | '/' :: '/' :: r => some ⟨scheme ++ ":", String.mk (hostOf r)⟩
        | _ => some ⟨scheme ++ ":", ""⟩
    else none

/-! ### Domain policy (src/main.js lines 40-73) -/

def ALLOWED_HOSTS : List String :=
  [ "grok.com",
    "x.ai",
    "cloudflare.com",
    "xai.com",
    "cloudflareinsights.com",
    "grokipedia.com",
    "grokusercontent.com" ]

def isAllowed (urlString : String) : Bool :=
  match parseURL urlString with
  | none => false
  | some u =>
    if u.protocol ≠ "https:" then false
    else
      let host := strToLower u.hostname
      ALLOWED_HOSTS.any (fun a => host == a || strEndsWith host ("." ++ a))

def isHttpUrl (u : URLRec) : Bool :=
  u.protocol == "http:" || u.protocol == "https:"

def shouldOpenExternally (targetUrl : String) : Bool :=
  match parseURL targetUrl with
  | none => false
  | some u =>
    if !(isHttpUrl u) then false
    else !(isAllowed targetUrl)

example : isAllowed "https://grok.com/" = true := by decide
example : isAllowed "https://accounts.x.ai/login" = true := by decide
example : isAllowed "http://grok.com/" = false := by decide
example : isAllowed "https://notgrok.com.evil.net/" = false := by decide
example : isAllowed "" = false := by decide
example : shouldOpenExternally "mailto:a@b.com" = false := by decide
example : shouldOpenExternally "http://example.com/" = true := by decide
example : parseURL "garbage" = none := by decide

/-! ### Navigation interceptors (src/main.js lines 162-176, 241-263)

Each callback is embedded as a pure function from the URL it is invoked
with to a record of its decision and side effects: `log` collects the
`console.log('[BLOCKED]', url)` calls, `externalOpens` the
`shell.openExternal(url)` calls, in order. -/

structure BeforeRequestResult where
  cancel : Bool
  log : List String
  deriving DecidableEq, Repr

/-- The `onBeforeRequest` callback: a thrown `new URL` cancels (the catch
branch); non-http(s) schemes proceed; http(s) is canceled and logged unless
`isAllowed`. -/
def onBeforeRequest (url : String) : BeforeRequestResult :=
  match parseURL url with
  | none => ⟨true, []⟩
  | some u =>
    if u.protocol ≠ "http:" && u.protocol ≠ "https:" then ⟨false, []⟩
    else if !(isAllowed url) then ⟨true, [url]⟩
    else ⟨false, []⟩

structure WindowOpenResult where
  action : String
  externalOpens : List String
  deriving DecidableEq, Repr

/-- The `setWindowOpenHandler` callback: forwards http(s) targets to the
OS browser, swallows parse failures, and always returns `deny`. -/
def windowOpenHandler (url : String) : WindowOpenResult :=
  match parseURL url with
  | none => ⟨"deny", []⟩
  | some u =>
    if u.protocol == "http:" || u.protocol == "https:" then ⟨"deny", [url]⟩
    else ⟨"deny", []⟩

structure NavResult where
  prevented : Bool
  externalOpens : List String
  deriving DecidableEq, Repr

/-- The `will-navigate` handler: cancels the in-shell navigation and opens
externally exactly when `shouldOpenExternally`. -/
def willNavigate (url : String) : NavResult :=
  if shouldOpenExternally url then ⟨true, [url]⟩ else ⟨false, []⟩

/-- The `will-redirect` handler: same body as `will-navigate`. -/
def willRedirect (url : String) : NavResult :=
  if shouldOpenExternally url then ⟨true, [url]⟩ else ⟨false, []⟩

/-! ### Restore-state store (src/main.js lines 9-37)

The state file is modelled by its content: missing (reads throw), present
but not JSON (`JSON.parse` throws), or a parsed JSON value.  JSON values
are a small inductive; object field lookup keeps the last duplicate, as
`JSON.parse` does. -/

inductive Js where
  | null : Js
  | bool : Bool → Js
  | num : Int → Js
  | str : String → Js
  | arr : List Js → Js
  | obj : List (String × Js) → Js

inductive RawFile where
  | missing : RawFile
  | notJson : String → RawFile
  | json : Js → RawFile

def lookupField (fields : List (String × Js)) (k : String) : Option Js :=
  fields.foldl (fun acc p => if p.1 = k then some p.2 else acc) none

/-- Function `writeRestoreUrl`: persists `{ restoreUrl: url, ts: Date.now() }`,
overwriting whatever was there. -/
def writeRestoreUrl (url : String) (ts : Int) : RawFile :=
  RawFile.json (Js.obj [("restoreUrl", Js.str url), ("ts", Js.num ts)])

/-- Function `readRestoreUrl`: returns the `restoreUrl` field when the file parses
to a JSON object carrying a string there; any read or parse failure, or an
unexpected shape, yields `none`. -/
def readRestoreUrl : RawFile → Option String
  | RawFile.missing => none
  | RawFile.notJson _ => none
  | RawFile.json v =>
    match v with
    | Js.obj fields =>
      match lookupField fields "restoreUrl" with
      | some (Js.str s) => some s
      | _ => none
    | _ => none

/-- Function `clearRestoreUrl`: deletes the file (missing-file errors swallowed). -/
def clearRestoreUrl (_f : RawFile) : RawFile :=
  RawFile.missing

/-! ### Startup URL selection (src/main.js lines 147-157) -/

def DEFAULT_URL : String := "https://grok.com/"

/-- The `startUrl` computed in `createWindow`: the persisted restore URL
when truthy and allowed, else the fixed default. -/
def startUrlOf (f : RawFile) : String :=
  match readRestoreUrl f with
  | some r => if r ≠ "" && isAllowed r then r else DEFAULT_URL
  | none => DEFAULT_URL

/-- Whether the one-shot `did-finish-load` / `did-fail-load` hooks that
clear the restore record are registered: exactly when the chosen startup
URL differs from the default. -/
def restoreHooksRegistered (f : RawFile) : Bool :=
  startUrlOf f != DEFAULT_URL

/-- The state file once the startup load has completed (successfully or
not): the one-shot hooks, when registered, have run `clearRestoreUrl`;
otherwise the file is untouched. -/
def fileAfterStartupLoad (f : RawFile) : RawFile :=
  if restoreHooksRegistered f then clearRestoreUrl f else f

/-! ### Window state and the second-instance handler (src/main.js 75-123)

A `BrowserWindow` is modelled by the queries the handler makes of it plus
its current URL; the window reference `win` is an `Option WinState`.  The
handler is a pure function from the reference, the notification-support
flag, the state file and the clock to the resulting window state, file
state and effect record. -/

structure WinState where
  destroyed : Bool
  focused : Bool
  visible : Bool
  minimized : Bool
  currentUrl : String
  deriving DecidableEq, Repr

/-- Function `safeGetCurrentUrl`: the window's URL when a live window reports a
nonempty, allowed URL; `null` otherwise. -/
def safeGetCurrentUrl (w : Option WinState) : Option String :=
  match w with
  | none => none
  | some ws =>
    if ws.destroyed then none
    else if ws.currentUrl == "" || !(isAllowed ws.currentUrl) then none
    else some ws.currentUrl

/-- Effect of `win.restore()`. -/
def restoreWin (w : WinState) : WinState :=
  ⟨w.destroyed, w.focused, w.visible, false, w.currentUrl⟩

/-- Effect of `win.show()`. -/
def showWin (w : WinState) : WinState :=
  ⟨w.destroyed, w.focused, true, w.minimized, w.currentUrl⟩

/-- Effect of `win.focus()`. -/
def focusWin (w : WinState) : WinState :=
  ⟨w.destroyed, true, w.visible, w.minimized, w.currentUrl⟩

structure SecondInstanceOutcome where
  win : Option WinState
  file : RawFile
  wrote : Option String
  quit : Bool
  notified : Bool

/-- The `second-instance` handler: no-op without a live window; when the
window is focused, visible and not minimized it captures the current URL
(if `safeGetCurrentUrl` yields one) and quits; otherwise it restores a
minimized window, shows a hidden one, focuses it, and posts a notification
when supported. -/
def secondInstance (w : Option WinState) (notifSupported : Bool)
    (file : RawFile) (ts : Int) : SecondInstanceOutcome :=
  match w with
  | none => ⟨none, file, none, false, false⟩
  | some ws =>
    if ws.destroyed then ⟨some ws, file, none, false, false⟩
    else if ws.focused && ws.visible && !ws.minimized then
      match safeGetCurrentUrl (some ws) with
      | some url => ⟨some ws, writeRestoreUrl url ts, some url, true, false⟩
      | none => ⟨some ws, file, none, true, false⟩
    else
      let w1 := if ws.minimized then restoreWin ws else ws
      let w2 := if !(w1.visible) then showWin w1 else w1
      let w3 := focusWin w2
      ⟨some w3, file, none, false, notifSupported⟩

/-! ### Shell window controller (src/main.js 125-134, 267-285)

The creation guard is driven by the module state `win` (live or not) and
`isWindowCreationStarted`; `windowCount` counts the `BrowserWindow`
instances actually constructed and alive, which is what the at-most-one-
window invariant is about. -/

structure ShellState where
  winLive : Bool
  creationStarted : Bool
  windowCount : Nat
  deriving DecidableEq, Repr

structure CreateResult where
  state : ShellState
  focusedExisting : Bool
  deriving DecidableEq, Repr

/-- Function `createWindow`: the guard returns early (focusing the live window)
when creation already started or a live window exists; otherwise it marks
creation started and constructs the window. -/
def createWindow (s : ShellState) : CreateResult :=
  if s.creationStarted || s.winLive then
    ⟨s, s.winLive⟩
  else
    ⟨⟨true, true, s.windowCount + 1⟩, false⟩

inductive ShellEvent where
  | create : ShellEvent
  | activate : ShellEvent
  | closed : ShellEvent
  deriving DecidableEq, Repr

/-- One controller step: `create` covers `whenReady`; `activate` calls
`createWindow` only when no window exists; `closed` destroys the window
and resets `win` and the creation flag. -/
def stepShell (s : ShellState) : ShellEvent → ShellState
  | ShellEvent.create => (createWindow s).state
  | ShellEvent.activate => if s.windowCount = 0 then (createWindow s).state else s
  | ShellEvent.closed => ⟨false, false, s.windowCount - 1⟩

def initShellState : ShellState := ⟨false, false, 0⟩

/-- The controller's state invariant: the window count matches the
liveness of the single reference, and the creation flag tracks it. -/
def ShellInv (s : ShellState) : Prop :=
  s.windowCount = (if s.winLive then 1 else 0) ∧ s.creationStarted = s.winLive

/-! ### Claim theorems -/

/-- Claim C2: `isAllowed(u)` is true iff `u` parses as a URL, its scheme is
exactly `https`, and its lower-cased hostname equals some allow-list entry
or ends with `.` followed by one; an unparseable `u` yields `false` rather
than an exception (the embedding is a total function). -/
theorem isAllowed_iff (u : String) :
    (isAllowed u = true ↔
      ∃ r, parseURL u = some r ∧ r.protocol = "https:" ∧
        ∃ a ∈ ALLOWED_HOSTS,
          strToLower r.hostname = a ∨
            strEndsWith (strToLower r.hostname) ("." ++ a) = true) ∧
    (parseURL u = none → isAllowed u = false) := by
  constructor
  · cases h : parseURL u with
    | none => simp [isAllowed, h]
    | some r =>
      simp only [isAllowed, h, Option.some.injEq]
      by_cases hp : r.protocol = "https:"
      · simp [hp, List.any_eq_true]
      · simp [hp]
  · intro h
    simp [isAllowed, h]

theorem isAllowed_iff_witness :
    isAllowed "https://api.x.ai/v1" = true ∧ isAllowed "garbage" = false :=
  ⟨(isAllowed_iff "https://api.x.ai/v1").1.mpr ⟨⟨"https:", "api.x.ai"⟩, by decide⟩,
    (isAllowed_iff "garbage").2 (by decide)⟩

/-- Claim C7: whenever `shouldOpenExternally(u)` is true, `u` parses with
an http/https scheme and is not allowed; it is false for every parseable
URL of another scheme and for every string that fails to parse. -/
theorem shouldOpenExternally_spec (u : String) :
    (shouldOpenExternally u = true →
      (∃ r, parseURL u = some r ∧ isHttpUrl r = true) ∧ isAllowed u = false) ∧
    (∀ r, parseURL u = some r → isHttpUrl r = false →
      shouldOpenExternally u = false) ∧
    (parseURL u = none → shouldOpenExternally u = false) := by
  refine ⟨?_, ?_, ?_⟩
  · intro h
    cases hp : parseURL u with
    | none => simp [shouldOpenExternally, hp] at h
    | some r =>
      cases hb : isHttpUrl r with
      | false => simp [shouldOpenExternally, hp, hb] at h
      | true =>
        simp only [shouldOpenExternally, hp, hb] at h
        refine ⟨⟨r, rfl, hb⟩, ?_⟩
        simpa using h
  · intro r hp hh
    simp [shouldOpenExternally, hp, hh]
  · intro hp
    simp [shouldOpenExternally, hp]

theorem shouldOpenExternally_spec_witness :
    (∃ r, parseURL "http://example.com/" = some r ∧ isHttpUrl r = true) ∧
      isAllowed "http://example.com/" = false :=
  (shouldOpenExternally_spec "http://example.com/").1 (by decide)

/-- Claim C8: the window-open handler always answers `deny`; a target that
parses with an http/https scheme is forwarded to the OS browser exactly
once, and any other target (non-http(s) scheme or parse failure) produces
no external open at all. -/
theorem windowOpenHandler_spec (u : String) :
    (windowOpenHandler u).action = "deny" ∧
    (∀ r, parseURL u = some r → isHttpUrl r = true →
      (windowOpenHandler u).externalOpens = [u]) ∧
    (∀ r, parseURL u = some r → isHttpUrl r = false →
      (windowOpenHandler u).externalOpens = []) ∧
    (parseURL u = none → (windowOpenHandler u).externalOpens = []) := by
  refine ⟨?_, ?_, ?_, ?_⟩
  · cases hp : parseURL u with
    | none => simp [windowOpenHandler, hp]
    | some r =>
      cases hb : (r.protocol == "http:" || r.protocol == "https:") <;>
        simp [windowOpenHandler, hp, hb]
  · intro r hp hh
    simp only [isHttpUrl] at hh
    simp [windowOpenHandler, hp, hh]
  · intro r hp hh
    simp only [isHttpUrl] at hh
    simp [windowOpenHandler, hp, hh]
  · intro hp
    simp [windowOpenHandler, hp]

theorem windowOpenHandler_spec_witness :
    (windowOpenHandler "https://grok.com/chat").action = "deny" ∧
      (windowOpenHandler "https://grok.com/chat").externalOpens =
        ["https://grok.com/chat"] :=
  ⟨(windowOpenHandler_spec "https://grok.com/chat").1,
    (windowOpenHandler_spec "https://grok.com/chat").2.1
      ⟨"https:", "grok.com"⟩ (by decide) (by decide)⟩

/-- Claim C1: for every http/https URL that is not allowed, every
interception point keeps it out of the shell — the request filter cancels
it, the window-open handler denies and forwards it to the OS browser, and
the will-navigate and will-redirect handlers cancel the in-shell
navigation and forward it to the OS browser, so a top-level intent is
never silently dropped. -/
theorem disallowed_never_in_shell (u : String) (r : URLRec)
    (hp : parseURL u = some r) (hh : isHttpUrl r = true)
    (hna : isAllowed u = false) :
    (onBeforeRequest u).cancel = true ∧
    (windowOpenHandler u).action = "deny" ∧
    (windowOpenHandler u).externalOpens = [u] ∧
    (willNavigate u).prevented = true ∧
    (willNavigate u).externalOpens = [u] ∧
    (willRedirect u).prevented = true ∧
    (willRedirect u).externalOpens = [u] := by
  have hso : shouldOpenExternally u = true := by
    simp [shouldOpenExternally, hp, hh, hna]
  have hpr : r.protocol = "http:" ∨ r.protocol = "https:" := by
    simpa [isHttpUrl] using hh
  rcases hpr with hpr | hpr <;>
    simp [onBeforeRequest, windowOpenHandler, willNavigate, willRedirect,
      hp, hpr, hna, hso]

theorem disallowed_never_in_shell_witness :
    (onBeforeRequest "http://example.com/").cancel = true ∧
    (windowOpenHandler "http://example.com/").action = "deny" ∧
    (windowOpenHandler "http://example.com/").externalOpens =
      ["http://example.com/"] ∧
    (willNavigate "http://example.com/").prevented = true ∧
    (willNavigate "http://example.com/").externalOpens =
      ["http://example.com/"] ∧
    (willRedirect "http://example.com/").prevented = true ∧
    (willRedirect "http://example.com/").externalOpens =
      ["http://example.com/"] :=
  disallowed_never_in_shell "http://example.com/" ⟨"http:", "example.com"⟩
    (by decide) (by decide) (by decide)

/-- Claim C3, counterexample: on a URL that fails to parse the filter
cancels the request (rather than letting a non-http(s) request proceed)
and logs nothing, so a blocked request is not always logged. -/
theorem onBeforeRequest_unparsed_counterexample :
    parseURL "garbage" = none ∧
    (onBeforeRequest "garbage").cancel = true ∧
    (onBeforeRequest "garbage").log = [] := by
  decide

/-- Claim C3 as amended: a URL that fails to parse is canceled without
logging (fail closed); a parseable URL with a non-http(s) scheme proceeds
unfiltered; a parseable http(s) URL proceeds unmodified when allowed and
otherwise is canceled and logged with its URL exactly once. -/
theorem onBeforeRequest_spec_amended (u : String) :
    (parseURL u = none → onBeforeRequest u = ⟨true, []⟩) ∧
    (∀ r, parseURL u = some r →
      ((r.protocol ≠ "http:" ∧ r.protocol ≠ "https:") →
        onBeforeRequest u = ⟨false, []⟩) ∧
      ((r.protocol = "http:" ∨ r.protocol = "https:") →
        (isAllowed u = false → onBeforeRequest u = ⟨true, [u]⟩) ∧
        (isAllowed u = true → onBeforeRequest u = ⟨false, []⟩))) := by
  constructor
  · intro hp
    simp [onBeforeRequest, hp]
  · intro r hp
    constructor
    · intro hn
      simp [onBeforeRequest, hp, hn.1, hn.2]
    · intro hpr
      constructor <;> intro ha <;> rcases hpr with hpr | hpr <;>
        simp [onBeforeRequest, hp, hpr, ha]

theorem onBeforeRequest_spec_amended_witness :
    onBeforeRequest "https://evil.example/" =
      ⟨true, ["https://evil.example/"]⟩ :=
  ((((onBeforeRequest_spec_amended "https://evil.example/").2
      ⟨"https:", "evil.example"⟩ (by decide)).2) (Or.inr rfl)).1 (by decide)

/-- Claim C6: write-then-read returns the written URL, read after clear is
absent, and reading a missing, non-JSON, or wrongly-shaped state file
(no string `restoreUrl` field) is absent; all operations are total
functions, so none throws. -/
theorem restore_store_spec (url : String) (ts : Int) (f : RawFile) :
    readRestoreUrl (writeRestoreUrl url ts) = some url ∧
    readRestoreUrl (clearRestoreUrl f) = none ∧
    readRestoreUrl RawFile.missing = none ∧
    (∀ raw, readRestoreUrl (RawFile.notJson raw) = none) ∧
    (∀ v : Js,
      (∀ fields, v = Js.obj fields →
        ∀ s, lookupField fields "restoreUrl" ≠ some (Js.str s)) →
      readRestoreUrl (RawFile.json v) = none) := by
  refine ⟨rfl, rfl, rfl, fun raw => rfl, ?_⟩
  intro v hv
  cases v with
  | obj fields =>
    simp only [readRestoreUrl]
    cases hl : lookupField fields "restoreUrl" with
    | none => rfl
    | some j =>
      cases j with
      | str s => exact absurd hl (hv fields rfl s)
      | null => rfl
      | bool b => rfl
      | num n => rfl
      | arr xs => rfl
      | obj fs => rfl
  | null => rfl
  | bool b => rfl
  | num n => rfl
  | str s => rfl
  | arr xs => rfl

theorem restore_store_spec_witness :
    readRestoreUrl (writeRestoreUrl "https://grok.com/a" 3) =
        some "https://grok.com/a" ∧
      readRestoreUrl (RawFile.json (Js.num 7)) = none := by
  have h := restore_store_spec "https://grok.com/a" 3 RawFile.missing
  exact ⟨h.1, h.2.2.2.2 (Js.num 7) (fun fields hf => by cases hf)⟩

/-- A state file holding a pending restore URL that `isAllowed` rejects. -/
def staleRestoreFile : RawFile :=
  RawFile.json (Js.obj [("restoreUrl", Js.str "http://e/")])

/-- Claim C4, counterexample: a pending restore record whose URL is not
allowed is not used as the startup URL, yet it is not cleared immediately —
no clear hooks are registered and the file still holds the record after
the startup load completes, so the record is not consumed. -/
theorem restore_consumption_counterexample :
    readRestoreUrl staleRestoreFile = some "http://e/" ∧
    isAllowed "http://e/" = false ∧
    startUrlOf staleRestoreFile = DEFAULT_URL ∧
    restoreHooksRegistered staleRestoreFile = false ∧
    readRestoreUrl (fileAfterStartupLoad staleRestoreFile) =
      some "http://e/" := by
  refine ⟨by decide, by decide, by decide, by decide, by decide⟩

/-- Claim C4 as amended: the startup URL is the persisted restore URL
exactly when one is present and `isAllowed` holds for it, and otherwise
the fixed default; the one-shot clear hooks (covering successful and
failed loads) are registered exactly when the chosen startup URL differs
from the default, so only such a restore record is cleared at load
completion — a pending record that is not used, or that equals the
default, is left in place rather than cleared immediately. -/
theorem startup_url_and_restore_consumption (f : RawFile) :
    (∀ r, readRestoreUrl f = some r → isAllowed r = true → startUrlOf f = r) ∧
    (∀ r, readRestoreUrl f = some r → isAllowed r = false →
      startUrlOf f = DEFAULT_URL) ∧
    (readRestoreUrl f = none → startUrlOf f = DEFAULT_URL) ∧
    (restoreHooksRegistered f = true ↔ startUrlOf f ≠ DEFAULT_URL) ∧
    fileAfterStartupLoad f =
      (if restoreHooksRegistered f then RawFile.missing else f) := by
  refine ⟨?_, ?_, ?_, ?_, rfl⟩
  · intro r hr ha
    have hne : (r == "") = false := by
      cases he : r == "" with
      | false => rfl
      | true =>
        rw [show r = "" from by simpa using he] at ha
        simp [show isAllowed "" = false from by decide] at ha
    have hne' : r ≠ "" := by simpa using hne
    simp [startUrlOf, hr, ha, hne']
  · intro r hr ha
    simp [startUrlOf, hr, ha]
  · intro hr
    simp [startUrlOf, hr]
  · constructor
    · intro h
      simpa [restoreHooksRegistered] using h
    · intro h
      simpa [restoreHooksRegistered] using h

theorem startup_url_and_restore_consumption_witness :
    startUrlOf (writeRestoreUrl "https://x.ai/chat" 5) = "https://x.ai/chat" :=
  (startup_url_and_restore_consumption (writeRestoreUrl "https://x.ai/chat" 5)).1
    "https://x.ai/chat" (by decide) (by decide)

/-- Claim C5: on a second-instance signal with a live window that is
focused, visible and not minimized, the current URL is written to the
restore store exactly when `isAllowed` holds for it (the captured value is
`webContents.getURL()` at signal time, nothing is written otherwise) and
the process quits; in every other state the window ends up restored
(not minimized), shown (visible) and focused, nothing is written, and the
process does not quit. -/
theorem secondInstance_spec (ws : WinState) (ns : Bool) (f : RawFile)
    (ts : Int) (hd : ws.destroyed = false) :
    (ws.focused = true → ws.visible = true → ws.minimized = false →
      (secondInstance (some ws) ns f ts).quit = true ∧
      (isAllowed ws.currentUrl = true →
        (secondInstance (some ws) ns f ts).wrote = some ws.currentUrl ∧
        (secondInstance (some ws) ns f ts).file =
          writeRestoreUrl ws.currentUrl ts) ∧
      (isAllowed ws.currentUrl = false →
        (secondInstance (some ws) ns f ts).wrote = none ∧
        (secondInstance (some ws) ns f ts).file = f) ∧
      (secondInstance (some ws) ns f ts).win = some ws) ∧
    (¬(ws.focused = true ∧ ws.visible = true ∧ ws.minimized = false) →
      (secondInstance (some ws) ns f ts).wrote = none ∧
      (secondInstance (some ws) ns f ts).file = f ∧
      (secondInstance (some ws) ns f ts).quit = false ∧
      ∃ w, (secondInstance (some ws) ns f ts).win = some w ∧
        w.minimized = false ∧ w.visible = true ∧ w.focused = true) := by
  constructor
  · intro hf hv hm
    have hguard : (ws.focused && ws.visible && !ws.minimized) = true := by
      simp [hf, hv, hm]
    refine ⟨?_, ?_, ?_, ?_⟩
    · cases hu : safeGetCurrentUrl (some ws) <;>
        simp [secondInstance, hd, hguard, hu]
    · intro ha
      have hne : (ws.currentUrl == "") = false := by
        cases he : ws.currentUrl == "" with
        | false => rfl
        | true =>
          rw [show ws.currentUrl = "" from by simpa using he] at ha
          simp [show isAllowed "" = false from by decide] at ha
      have hu : safeGetCurrentUrl (some ws) = some ws.currentUrl := by
        simp [safeGetCurrentUrl, hd, hne, ha]
      simp [secondInstance, hd, hguard, hu]
    · intro ha
      have hu : safeGetCurrentUrl (some ws) = none := by
        simp [safeGetCurrentUrl, hd, ha]
      simp [secondInstance, hd, hguard, hu]
    · cases hu : safeGetCurrentUrl (some ws) <;>
        simp [secondInstance, hd, hguard, hu]
  · intro hns
    have hguard : (ws.focused && ws.visible && !ws.minimized) = false := by
      cases h1 : ws.focused <;> cases h2 : ws.visible <;>
        cases h3 : ws.minimized <;> simp_all
    refine ⟨?_, ?_, ?_, ?_⟩ <;>
      simp [secondInstance, hd, hguard, restoreWin, showWin, focusWin]
    cases h3 : ws.minimized <;> cases h2 : ws.visible <;>
      simp [restoreWin, showWin, focusWin, h2, h3]

theorem secondInstance_spec_witness :
    (secondInstance (some ⟨false, true, true, false, "https://grok.com/c"⟩)
        false RawFile.missing 7).quit = true ∧
      (secondInstance (some ⟨false, true, true, false, "https://grok.com/c"⟩)
        false RawFile.missing 7).wrote = some "https://grok.com/c" := by
  have h := secondInstance_spec ⟨false, true, true, false, "https://grok.com/c"⟩
    false RawFile.missing 7 rfl
  have h1 := h.1 rfl rfl rfl
  exact ⟨h1.1, (h1.2.1 (by decide)).1⟩

/-- Claim C9: at most one shell window exists at any time — the controller
invariant holds initially and is preserved by every event (creation,
activate, closed), the window count never exceeds one, and a creation
request while a window is live (or while creation is in progress) creates
no new window, instead focusing the existing one. -/
theorem shell_single_window (s : ShellState) (e : ShellEvent)
    (hInv : ShellInv s) :
    ShellInv initShellState ∧
    s.windowCount ≤ 1 ∧
    ShellInv (stepShell s e) ∧
    (stepShell s e).windowCount ≤ 1 ∧
    (s.winLive = true →
      (createWindow s).state = s ∧ (createWindow s).focusedExisting = true) ∧
    (s.creationStarted = true → (createWindow s).state = s) := by
  obtain ⟨h1, h2⟩ := hInv
  rcases s with ⟨wl, cs, n⟩
  simp only at h1 h2
  subst h2
  cases cs <;> simp at h1 <;> subst h1 <;> cases e <;>
    simp [ShellInv, stepShell, createWindow, initShellState]

theorem shell_single_window_witness :
    ShellInv (stepShell initShellState ShellEvent.create) ∧
      (stepShell initShellState ShellEvent.create).windowCount ≤ 1 := by
  have h := shell_single_window initShellState ShellEvent.create ⟨rfl, rfl⟩
  exact ⟨h.2.2.1, h.2.2.2.1⟩

/-- Claim C10: a second-instance signal that arrives with no live window
(null reference or destroyed window) changes nothing: the window reference
and state file are unchanged and no write, quit, or notification effect
occurs. -/
theorem secondInstance_no_window_noop (w : Option WinState) (ns : Bool)
    (f : RawFile) (ts : Int)
    (h : w = none ∨ ∃ ws, w = some ws ∧ ws.destroyed = true) :
    (secondInstance w ns f ts).win = w ∧
    (secondInstance w ns f ts).file = f ∧
    (secondInstance w ns f ts).wrote = none ∧
    (secondInstance w ns f ts).quit = false ∧
    (secondInstance w ns f ts).notified = false := by
  rcases h with h | ⟨ws, h, hdw⟩
  · subst h
    simp [secondInstance]
  · subst h
    simp [secondInstance, hdw]

theorem secondInstance_no_window_noop_witness :
    (secondInstance none true RawFile.missing 0).win = none ∧
    (secondInstance none true RawFile.missing 0).file = RawFile.missing ∧
    (secondInstance none true RawFile.missing 0).wrote = none ∧
    (secondInstance none true RawFile.missing 0).quit = false ∧
    (secondInstance none true RawFile.missing 0).notified = false :=
  secondInstance_no_window_noop none true RawFile.missing 0 (Or.inl rfl)
